import Mathlib

/-!
Shallow embedding of the RoleFit frontend (API client, page controller,
and result-visualization components), with theorems checking the
specification's claims against it.

Sources embedded:
- frontend/src/components/VisualResults.tsx (score ring, bar chart,
  skill-match indicator, confidence meter)
- frontend/src/app/page.tsx (page controller state and handlers)
- the API client module (ResumeAnalyzerAPI)

JavaScript numbers are modelled as ℚ (scores, percentages) or ℤ where
only integer comparisons occur; fallible operations (fetch, JSON
parsing) are modelled by explicit outcome types.
-/

namespace RoleFit

/-- Score ring color, from CircularProgress.getColor in VisualResults.tsx:
three hex colors selected at inclusive thresholds 80 and 60. -/
def CircularProgress.getColor (percentage : ℚ) : String :=
  if percentage ≥ 80 then "#8b5cf6"
  else if percentage ≥ 60 then "#6366f1"
  else "#f87171"

/-- Score ring dash offset, from CircularProgress in VisualResults.tsx:
`circumference - (percentage / 100) * circumference` (circumference is
`radius * 2 * Math.PI`; it is kept as a parameter here). -/
def CircularProgress.strokeDashoffset (circumference percentage : ℚ) : ℚ :=
  circumference - percentage / 100 * circumference

/-- Textual score rating, from getScoreLabel in VisualResults.tsx. -/
def getScoreLabel (score : ℚ) : String :=
  if score ≥ 80 then "Excellent"
  else if score ≥ 60 then "Good"
  else if score ≥ 40 then "Fair"
  else "Needs Improvement"

/-- Score rating text color, from getScoreColor in VisualResults.tsx. -/
def getScoreColor (score : ℚ) : String :=
  if score ≥ 80 then "text-violet-300"
  else if score ≥ 60 then "text-indigo-300"
  else if score ≥ 40 then "text-slate-300"
  else "text-rose-300"

/-- Skill-match fill percentage, from SkillMatchRadar in VisualResults.tsx:
`total > 0 ? (matched.length / total) * 100 : 0`. -/
def matchPercentage (matched missing : List String) : ℚ :=
  let total := matched.length + missing.length
  if 0 < total then ((matched.length : ℚ) / (total : ℚ)) * 100 else 0

/-- Confidence bar percentage, from ConfidenceMeter in VisualResults.tsx:
`confidence * 100`, used unclamped for the bar width. -/
def confidencePercentage (confidence : ℚ) : ℚ :=
  confidence * 100

/-- JavaScript Math.round: round half toward positive infinity. -/
def jsRound (q : ℚ) : ℤ :=
  ⌊q + 1 / 2⌋

/-- Model of the JavaScript String.prototype.trim builtin (used by the
page controller as `jobDescription.trim()`): strips leading and trailing
whitespace characters. -/
def jsTrim (s : String) : String :=
  String.mk (((s.data.dropWhile Char.isWhitespace).reverse.dropWhile
    Char.isWhitespace).reverse)

/-! ### Data model (AnalysisResult, from the API client module) -/

/-- The `analysis` sub-object of AnalysisResult. -/
structure Analysis where
  ats_score : ℚ
  strengths : List String
  improvements : List String
  missing_keywords : List String
  keyword_matches : List String
  overall_feedback : String
  confidence_score : ℚ
deriving DecidableEq, Repr

/-- The `file_info` sub-object of AnalysisResult. -/
structure FileInfo where
  filename : String
  file_type : String
  size_mb : ℚ
  text_length : ℕ
  processed_at : String
deriving DecidableEq, Repr

/-- The `metadata` sub-object of AnalysisResult. -/
structure Metadata where
  api_version : String
  analysis_type : String
deriving DecidableEq, Repr

/-- AnalysisResult, as declared in the API client module. -/
structure AnalysisResult where
  success : Bool
  analysis : Analysis
  file_info : FileInfo
  metadata : Metadata
deriving DecidableEq, Repr

/-! ### Bar chart (VisualResults.tsx) -/

/-- The `barData` array built in VisualResults: label and count of each
of the four bars (colors omitted; they carry no data). -/
def barData (a : Analysis) : List (String × ℕ) :=
  [("Strengths", a.strengths.length),
   ("Improvements", a.improvements.length),
   ("Missing Keywords", a.missing_keywords.length),
   ("Matched Keywords", a.keyword_matches.length)]

/-- The `maxValue` passed to BarChart in VisualResults:
`Math.max(...barData.map(d => d.value), 1)`. -/
def barChartMaxValue (a : Analysis) : ℕ :=
  ((barData a).map Prod.snd).foldr max 1

/-- JavaScript number division producing a finite result: `none` models
the non-finite outcomes (NaN for 0/0, ±Infinity for x/0 with x ≠ 0). -/
def jsDiv (a b : ℚ) : Option ℚ :=
  if b = 0 then none else some (a / b)

/-- A bar's width percentage in BarChart:
`(item.value / maxValue) * 100`. -/
def barWidthPct (value maxValue : ℕ) : Option ℚ :=
  (jsDiv (value : ℚ) (maxValue : ℚ)).map (fun q => q * 100)

/-! ### API client (ResumeAnalyzerAPI.analyzeResume)

The browser fetch/JSON environment is modelled explicitly: a call either
resolves to a response or rejects with a thrown value; reading a
response body as JSON either yields the typed value or rejects with a
SyntaxError carrying a message.  The two possible typed readings of the
body (error body on the non-ok path, AnalysisResult on the ok path) are
both recorded on the response, since the code consults exactly one of
them depending on `response.ok`. -/

/-- A JavaScript thrown value as observed by a `catch` block:
either an Error instance carrying a `.message` string, or any
non-Error value (which has no message). -/
inductive Thrown where
  | error (message : String)
  | nonError
deriving DecidableEq, Repr

/-- Outcome of `await response.json()` when the body is read as some
type `α`: the parsed value, or rejection with a SyntaxError whose
`.message` is recorded. -/
inductive JsonOutcome (α : Type) where
  | ok (v : α)
  | parseError (message : String)
deriving DecidableEq, Repr

/-- The ApiError shape declared in the API client module:
`{ detail: string }`; `none` models an absent `detail` field. -/
structure ApiError where
  detail : Option String
deriving DecidableEq, Repr

/-- A resolved fetch response, with both typed readings of its body. -/
structure HttpResponse where
  ok : Bool
  status : ℕ
  statusText : String
  errorJson : JsonOutcome ApiError
  resultJson : JsonOutcome AnalysisResult
deriving DecidableEq, Repr

/-- Outcome of `await fetch(...)`: a resolved response, or rejection
with a thrown value (network failure, no response). -/
inductive FetchOutcome where
  | resp (r : HttpResponse)
  | thrown (t : Thrown)
deriving DecidableEq, Repr

/-- JavaScript `a || b` on a possibly-absent string `a`: the fallback is
taken when `a` is absent (undefined) or falsy (the empty string). -/
def jsOrElse (a : Option String) (fallback : String) : String :=
  match a with
  | some s => if s = "" then fallback else s
  | none => fallback

/-- The `try` block of analyzeResume: on a non-ok response, throws an
Error whose message is `errorData.detail || "HTTP <status>: <statusText>"`
(the json() rejection itself propagates if the error body fails to
parse); on an ok response, returns the parsed AnalysisResult (the
json() rejection propagates if parsing fails). -/
def analyzeResumeTry (f : FetchOutcome) : Except Thrown AnalysisResult :=
  match f with
  | .thrown t => .error t
  | .resp r =>
    if r.ok then
      match r.resultJson with
      | .parseError m => .error (.error m)
      | .ok result => .ok result
    else
      match r.errorJson with
      | .parseError m => .error (.error m)
      | .ok errorData =>
        .error (.error (jsOrElse errorData.detail
          ("HTTP " ++ toString r.status ++ ": " ++ r.statusText)))

/-- analyzeResume with its `catch` block: any thrown Error is rewrapped
as `Error("Analysis failed: " + error.message)`; a thrown non-Error
becomes `Error("Analysis failed: Unknown error occurred")`. -/
def analyzeResume (f : FetchOutcome) : Except String AnalysisResult :=
  match analyzeResumeTry f with
  | .ok result => .ok result
  | .error (.error m) => .error ("Analysis failed: " ++ m)
  | .error .nonError => .error "Analysis failed: Unknown error occurred"

/-! ### Page controller (page.tsx, Home component) -/

/-- The selected resume file (only the fields the page reads). -/
structure JsFile where
  name : String
  size : ℕ
deriving DecidableEq, Repr

/-- The Home component state: the five useState hooks. -/
structure HomeState where
  resumeFile : Option JsFile
  jobDescription : String
  isAnalyzing : Bool
  analysisResult : Option AnalysisResult
  error : Option String
deriving DecidableEq, Repr

/-- The initial Home state, from the useState initial values. -/
def initialState : HomeState :=
  { resumeFile := none, jobDescription := "", isAnalyzing := false,
    analysisResult := none, error := none }

/-- Which view the page renders: the upload form is shown when
`analysisResult` is null, the results section when it is set. -/
inductive View where
  | form
  | results
deriving DecidableEq, Repr

/-- The rendered view of a state (`{!analysisResult && ...form...}` and
`{analysisResult && ...results...}` in page.tsx). -/
def view (s : HomeState) : View :=
  if s.analysisResult.isSome then .results else .form

/-- The analyze button's `disabled` attribute:
`!resumeFile || !jobDescription.trim() || isAnalyzing`. -/
def analyzeDisabled (s : HomeState) : Bool :=
  s.resumeFile.isNone || jsTrim s.jobDescription == "" || s.isAnalyzing

/-- handleAnalyze up to the point where the API call is awaited: the
guard (which sets a validation error and returns), then
`setIsAnalyzing(true)`, `setError(null)`, `setAnalysisResult(null)`. -/
def handleAnalyzePre (s : HomeState) : HomeState :=
  if s.resumeFile.isNone || jsTrim s.jobDescription == "" then
    { s with error := some "Please upload a resume and enter a job description" }
  else
    { s with isAnalyzing := true, error := none, analysisResult := none }

/-- The complete handleAnalyze, given the outcome of the awaited
`apiService.analyzeResume` call (which is only made when the guard
passes): on success stores the result; on failure stores
`err instanceof Error ? err.message : "Analysis failed. Please try again."`;
the `finally` clears `isAnalyzing` on both paths. -/
def handleAnalyze (s : HomeState) (outcome : Except Thrown AnalysisResult) :
    HomeState :=
  if s.resumeFile.isNone || jsTrim s.jobDescription == "" then
    { s with error := some "Please upload a resume and enter a job description" }
  else
    let s1 := { s with isAnalyzing := true, error := none, analysisResult := none }
    match outcome with
    | .ok result => { s1 with analysisResult := some result, isAnalyzing := false }
    | .error (.error m) => { s1 with error := some m, isAnalyzing := false }
    | .error .nonError =>
      { s1 with
        error := some "Analysis failed. Please try again.",
        isAnalyzing := false }

/-- The reset button's onClick in the results view:
`setAnalysisResult(null); setResumeFile(null); setJobDescription("");
setError(null)`. -/
def resetState (s : HomeState) : HomeState :=
  { s with
    analysisResult := none, resumeFile := none,
    jobDescription := "", error := none }

/-! ### Concrete fixtures used by witnesses and counterexamples -/

/-- An analysis whose four list fields are all empty. -/
def emptyAnalysis : Analysis :=
  { ats_score := 0, strengths := [], improvements := [],
    missing_keywords := [], keyword_matches := [], overall_feedback := "",
    confidence_score := 0 }

/-- A concrete successful AnalysisResult. -/
def exampleResult : AnalysisResult :=
  { success := true,
    analysis :=
      { ats_score := 85, strengths := ["clear formatting"],
        improvements := ["add metrics"], missing_keywords := ["aws"],
        keyword_matches := ["python", "sql"],
        overall_feedback := "Solid resume.", confidence_score := 1 },
    file_info :=
      { filename := "resume.pdf", file_type := "pdf", size_mb := 1,
        text_length := 1200, processed_at := "2025-01-01T00:00:00Z" },
    metadata := { api_version := "1.0", analysis_type := "full" } }

/-- A non-ok response whose error body fails to parse as JSON. -/
def parseFailureResponse : HttpResponse :=
  { ok := false, status := 500, statusText := "Internal Server Error",
    errorJson := .parseError "Unexpected end of JSON input",
    resultJson := .parseError "Unexpected end of JSON input" }

/-- A 422 response whose error body parses with an empty detail string. -/
def emptyDetailResponse : HttpResponse :=
  { ok := false, status := 422, statusText := "Unprocessable Entity",
    errorJson := .ok { detail := some "" },
    resultJson := .parseError "Unexpected token" }

/-- A 422 response with body `detail = "Unsupported file type"`. -/
def unsupportedTypeResponse : HttpResponse :=
  { ok := false, status := 422, statusText := "Unprocessable Entity",
    errorJson := .ok { detail := some "Unsupported file type" },
    resultJson := .parseError "Unexpected token" }

/-- A form state with a file selected and a non-blank description. -/
def readyState : HomeState :=
  { resumeFile := some { name := "resume.pdf", size := 2048 },
    jobDescription := "React developer", isAnalyzing := false,
    analysisResult := none, error := none }

/-- A results-view state holding a stored result. -/
def postResultState : HomeState :=
  { resumeFile := some { name := "resume.pdf", size := 2048 },
    jobDescription := "React developer", isAnalyzing := false,
    analysisResult := some exampleResult, error := none }

/-! ### Claims -/

/-- C1 (counterexample): the claim says scores below 60 all fall in a
single "low" tier and that there are exactly three tiers, but the score
indicator's rating label distinguishes two tiers below 60: at score 50
it renders "Fair" and at score 30 "Needs Improvement" (with matching
distinct text colors), so the rendered tiering is four-way, not
three-way. -/
theorem C1_counterexample :
    getScoreLabel 50 = "Fair" ∧
    getScoreLabel 30 = "Needs Improvement" ∧
    getScoreLabel 50 ≠ getScoreLabel 30 ∧
    getScoreColor 50 = "text-slate-300" ∧
    getScoreColor 30 = "text-rose-300" := by
  refine ⟨by decide, by decide, by decide, by decide, by decide⟩

/-- C1 (amended): the ring color has exactly three tiers with inclusive
lower bounds 80 and 60 (violet iff s ≥ 80, indigo iff 60 ≤ s < 80, rose
iff s < 60), while the textual rating label has four tiers: "Excellent"
iff s ≥ 80, "Good" iff 60 ≤ s < 80, "Fair" iff 40 ≤ s < 60, and
"Needs Improvement" iff s < 40. -/
theorem C1_score_tiers (s : ℚ) :
    (CircularProgress.getColor s = "#8b5cf6" ↔ 80 ≤ s) ∧
    (CircularProgress.getColor s = "#6366f1" ↔ 60 ≤ s ∧ s < 80) ∧
    (CircularProgress.getColor s = "#f87171" ↔ s < 60) ∧
    (getScoreLabel s = "Excellent" ↔ 80 ≤ s) ∧
    (getScoreLabel s = "Good" ↔ 60 ≤ s ∧ s < 80) ∧
    (getScoreLabel s = "Fair" ↔ 40 ≤ s ∧ s < 60) ∧
    (getScoreLabel s = "Needs Improvement" ↔ s < 40) := by
  unfold CircularProgress.getColor getScoreLabel
  split_ifs with h1 h2 h3 <;> push_neg at * <;> simp <;>
    (repeat' apply And.intro) <;> intros <;> linarith

/-- C2: the bar chart's scale denominator is the maximum of the four
counts with a minimum of 1; every bar's width percentage is therefore a
finite value `count / denominator * 100` (never NaN), and when all four
counts are zero every bar's width is 0%. -/
theorem C2_bar_chart_no_div_by_zero (a : Analysis) :
    barChartMaxValue a =
      max 1 (max (max a.strengths.length a.improvements.length)
        (max a.missing_keywords.length a.keyword_matches.length)) ∧
    (∀ p ∈ barData a,
      barWidthPct p.2 (barChartMaxValue a) =
        some ((p.2 : ℚ) / (barChartMaxValue a : ℚ) * 100)) ∧
    (a.strengths = [] → a.improvements = [] → a.missing_keywords = [] →
      a.keyword_matches = [] →
      ∀ p ∈ barData a, barWidthPct p.2 (barChartMaxValue a) = some 0) := by
  have hmax : barChartMaxValue a =
      max 1 (max (max a.strengths.length a.improvements.length)
        (max a.missing_keywords.length a.keyword_matches.length)) := by
    simp [barChartMaxValue, barData]
    omega
  have hpos : 1 ≤ barChartMaxValue a := by
    rw [hmax]; exact le_max_left 1 _
  have hne : (barChartMaxValue a : ℚ) ≠ 0 := by
    have : barChartMaxValue a ≠ 0 := by omega
    exact_mod_cast this
  refine ⟨hmax, ?_, ?_⟩
  · intro p _
    simp [barWidthPct, jsDiv, hne]
  · intro hs hi hm hk p hp
    have h1 : barChartMaxValue a = 1 := by
      simp [barChartMaxValue, barData, hs, hi, hm, hk]
    have hp0 : p.2 = 0 := by
      simp [barData, hs, hi, hm, hk] at hp
      rcases hp with h | h | h | h <;> simp [h]
    rw [h1, hp0]
    simp [barWidthPct, jsDiv]

/-- C2 (witness): instantiated at an analysis whose four counts are all
zero, the "Strengths" bar has a finite width of 0%. -/
theorem C2_witness :
    barWidthPct 0 (barChartMaxValue emptyAnalysis) =
      some ((0 : ℚ) / (barChartMaxValue emptyAnalysis : ℚ) * 100) ∧
    barWidthPct 0 (barChartMaxValue emptyAnalysis) = some 0 :=
  ⟨(C2_bar_chart_no_div_by_zero emptyAnalysis).2.1 ("Strengths", 0) (by decide),
   (C2_bar_chart_no_div_by_zero emptyAnalysis).2.2 rfl rfl rfl rfl
     ("Strengths", 0) (by decide)⟩

/-- C3 (counterexample): the claim says the "HTTP <status>: <statusText>"
fallback is used when parsing the error body fails, but the code lets the
JSON rejection propagate to the catch block, which wraps the parse
failure's own message instead; and a present-but-empty detail field also
triggers the HTTP fallback (detail is used only when truthy), which the
claim does not allow. -/
theorem C3_counterexample :
    analyzeResume (.resp parseFailureResponse) =
      .error "Analysis failed: Unexpected end of JSON input" ∧
    analyzeResume (.resp parseFailureResponse) ≠
      .error "Analysis failed: HTTP 500: Internal Server Error" ∧
    analyzeResume (.resp emptyDetailResponse) =
      .error "Analysis failed: HTTP 422: Unprocessable Entity" := by
  refine ⟨rfl, ?_, by rfl⟩
  have h1 : analyzeResume (.resp parseFailureResponse) =
      .error "Analysis failed: Unexpected end of JSON input" := rfl
  rw [h1]
  simp

/-- C3 (amended): for every non-success HTTP response, the operation
fails with "Analysis failed: " prefixing: the parse failure's message
when the error body fails to parse as JSON; the detail field when it is
present and non-empty; and "HTTP <status>: <statusText>" when the body
parses but detail is absent or empty. -/
theorem C3_http_error_message (r : HttpResponse) (h : r.ok = false) :
    (∀ m, r.errorJson = .parseError m →
      analyzeResume (.resp r) = .error ("Analysis failed: " ++ m)) ∧
    (∀ d, r.errorJson = .ok { detail := some d } → d ≠ "" →
      analyzeResume (.resp r) = .error ("Analysis failed: " ++ d)) ∧
    (∀ b, r.errorJson = .ok b → (b.detail = none ∨ b.detail = some "") →
      analyzeResume (.resp r) =
        .error ("Analysis failed: " ++
          ("HTTP " ++ toString r.status ++ ": " ++ r.statusText))) := by
  refine ⟨?_, ?_, ?_⟩
  · intro m hm
    simp [analyzeResume, analyzeResumeTry, h, hm]
  · intro d hd hne
    simp [analyzeResume, analyzeResumeTry, jsOrElse, h, hd, hne]
  · intro b hb hdet
    rcases hdet with hdet | hdet <;>
      simp [analyzeResume, analyzeResumeTry, jsOrElse, h, hb, hdet]

/-- C3 (witness): the amended statement instantiated at the three
concrete non-success responses. -/
theorem C3_witness :
    analyzeResume (.resp parseFailureResponse) =
      .error ("Analysis failed: " ++ "Unexpected end of JSON input") ∧
    analyzeResume (.resp unsupportedTypeResponse) =
      .error ("Analysis failed: " ++ "Unsupported file type") ∧
    analyzeResume (.resp emptyDetailResponse) =
      .error ("Analysis failed: " ++
        ("HTTP " ++ toString emptyDetailResponse.status ++ ": " ++
          emptyDetailResponse.statusText)) :=
  ⟨(C3_http_error_message parseFailureResponse rfl).1
      "Unexpected end of JSON input" rfl,
   (C3_http_error_message unsupportedTypeResponse rfl).2.1
      "Unsupported file type" rfl (by decide),
   (C3_http_error_message emptyDetailResponse rfl).2.2
      { detail := some "" } rfl (Or.inr rfl)⟩

/-- C4: an HTTP 422 response whose JSON body has detail
"Unsupported file type" surfaces exactly
"Analysis failed: Unsupported file type", for any status text and any
reading of the body as an AnalysisResult. -/
theorem C4_unsupported_file_type (st : String)
    (rj : JsonOutcome AnalysisResult) :
    analyzeResume (.resp
      { ok := false, status := 422, statusText := st,
        errorJson := .ok { detail := some "Unsupported file type" },
        resultJson := rj }) =
      .error "Analysis failed: Unsupported file type" := rfl

/-- C5 (counterexample): an underlying failure that does carry a message,
namely the Error message "Unknown error occurred", also surfaces exactly
"Analysis failed: Unknown error occurred", so the surfaced string
equalling the generic fallback does not imply that the failure carried
no message: the claim's "if and only if" fails in the only-if
direction. -/
theorem C5_counterexample :
    analyzeResume (.thrown (.error "Unknown error occurred")) =
      .error "Analysis failed: Unknown error occurred" ∧
    Thrown.error "Unknown error occurred" ≠ Thrown.nonError := by
  refine ⟨rfl, by decide⟩

/-- C5 (amended): on a transport failure with no response, the surfaced
string is "Analysis failed: Unknown error occurred" if the underlying
failure carries no message (it is not an Error), and whenever the
failure carries a message the surfaced string embeds that message under
the "Analysis failed: " prefix (so the generic string can also arise
from a failure whose own message is "Unknown error occurred"). -/
theorem C5_network_failure_message (t : Thrown) :
    (t = .nonError →
      analyzeResume (.thrown t) =
        .error "Analysis failed: Unknown error occurred") ∧
    (∀ m, t = .error m →
      analyzeResume (.thrown t) = .error ("Analysis failed: " ++ m)) := by
  constructor
  · rintro rfl; rfl
  · rintro m rfl; rfl

/-- C5 (witness): the amended statement instantiated at a messageless
thrown value and at a browser-style network Error. -/
theorem C5_witness :
    analyzeResume (.thrown .nonError) =
      .error "Analysis failed: Unknown error occurred" ∧
    analyzeResume (.thrown (.error "Failed to fetch")) =
      .error ("Analysis failed: " ++ "Failed to fetch") :=
  ⟨(C5_network_failure_message .nonError).1 rfl,
   (C5_network_failure_message (.error "Failed to fetch")).2
      "Failed to fetch" rfl⟩

/-- The match proportion as the specification words it: 0 when both
lists are empty, matched / (matched + missing) otherwise (refinement
target to compare against the source's matchPercentage). -/
def specMatchProportion (matched missing : List String) : ℚ :=
  if matched.length + missing.length = 0 then 0
  else (matched.length : ℚ) / ((matched.length : ℚ) + (missing.length : ℚ))

/-- C6: the skill-match fill percentage is exactly the spec's proportion
scaled to percent — matched/(matched+missing) when some list is
non-empty and 0 when both are empty — and the spec's example
(matched = ["python","sql"], missing = ["aws"]) gives 2/3. -/
theorem C6_match_proportion (matched missing : List String) :
    matchPercentage matched missing =
      specMatchProportion matched missing * 100 ∧
    specMatchProportion ["python", "sql"] ["aws"] = 2 / 3 := by
  constructor
  · unfold matchPercentage specMatchProportion
    rcases Nat.eq_zero_or_pos (matched.length + missing.length) with h | h
    · simp [h]
    · rw [if_pos h, if_neg (by omega)]
      push_cast
      ring
  · norm_num [specMatchProportion]

/-- C7: the submit control is disabled exactly when the selected file is
absent, or the job description trims to the empty string, or a request
is in flight; in particular a state with a file selected and description
"   " has it disabled. -/
theorem C7_submit_disabled_iff (s : HomeState) :
    (analyzeDisabled s = true ↔
      s.resumeFile = none ∨ jsTrim s.jobDescription = "" ∨
        s.isAnalyzing = true) ∧
    analyzeDisabled
      { resumeFile := some { name := "resume.pdf", size := 2048 },
        jobDescription := "   ", isAnalyzing := false,
        analysisResult := none, error := none } = true := by
  constructor
  · simp [analyzeDisabled, Option.isNone_iff_eq_none, or_assoc]
  · decide

/-- C8: from a state with a file selected and a non-blank description,
submitting first sets isAnalyzing and clears the error and any prior
result; on success it stores the returned result and the page renders
the results view; on failure it stores the Error's message (or the
generic fallback when the failure carries none), the stored result stays
null so the page stays on the form view; and isAnalyzing is cleared on
both outcomes. -/
theorem C8_submit_flow (s : HomeState) (f : JsFile)
    (hf : s.resumeFile = some f) (hd : jsTrim s.jobDescription ≠ "") :
    handleAnalyzePre s =
      { s with isAnalyzing := true, error := none, analysisResult := none } ∧
    (∀ result,
      handleAnalyze s (.ok result) =
        { s with
          analysisResult := some result, error := none,
          isAnalyzing := false } ∧
      view (handleAnalyze s (.ok result)) = .results) ∧
    (∀ m,
      handleAnalyze s (.error (.error m)) =
        { s with
          error := some m, analysisResult := none, isAnalyzing := false } ∧
      view (handleAnalyze s (.error (.error m))) = .form) ∧
    (handleAnalyze s (.error .nonError) =
      { s with
        error := some "Analysis failed. Please try again.",
        analysisResult := none, isAnalyzing := false } ∧
      view (handleAnalyze s (.error .nonError)) = .form) := by
  have hg : (s.resumeFile.isNone || (jsTrim s.jobDescription == "")) = false := by
    simp [hf, hd]
  refine ⟨?_, fun result => ⟨?_, ?_⟩, fun m => ⟨?_, ?_⟩, ?_, ?_⟩ <;>
    simp [handleAnalyzePre, handleAnalyze, view, hg]

/-- C8 (witness): the flow instantiated at a concrete ready state, a
concrete successful result, and both failure shapes. -/
theorem C8_witness :
    handleAnalyzePre readyState =
      { readyState with
        isAnalyzing := true, error := none, analysisResult := none } ∧
    view (handleAnalyze readyState (.ok exampleResult)) = View.results ∧
    view (handleAnalyze readyState (.error (.error "boom"))) = View.form ∧
    view (handleAnalyze readyState (.error .nonError)) = View.form :=
  ⟨(C8_submit_flow readyState { name := "resume.pdf", size := 2048 } rfl
      (by decide)).1,
   ((C8_submit_flow readyState { name := "resume.pdf", size := 2048 } rfl
      (by decide)).2.1 exampleResult).2,
   ((C8_submit_flow readyState { name := "resume.pdf", size := 2048 } rfl
      (by decide)).2.2.1 "boom").2,
   (C8_submit_flow readyState { name := "resume.pdf", size := 2048 } rfl
      (by decide)).2.2.2.2⟩

/-- C9: the reset action sets the stored result, the selected file and
the error to null and the description to the empty string; from any
state with no request in flight (as in the results view, which is only
reached after the submit flow has cleared isAnalyzing) it restores
exactly the initial form-view state. -/
theorem C9_reset (s : HomeState) (h : s.isAnalyzing = false) :
    (resetState s).analysisResult = none ∧
    (resetState s).resumeFile = none ∧
    (resetState s).jobDescription = "" ∧
    (resetState s).error = none ∧
    view (resetState s) = View.form ∧
    resetState s = initialState := by
  refine ⟨rfl, rfl, rfl, rfl, rfl, ?_⟩
  cases s
  simp_all [resetState, initialState]

/-- C9 (witness): resetting a concrete results-view state yields exactly
the initial state. -/
theorem C9_witness : resetState postResultState = initialState :=
  (C9_reset postResultState rfl).2.2.2.2.2

/-- C10: no rendering function clamps out-of-range inputs to the
documented ranges: a confidence_score of 6/5 produces a bar width and a
rounded display value of 120% (beyond 100), and an ats_score of 120 makes
the ring's dash offset negative (the ring overdraws a full circle) for
every positive circumference while still being colored as the top tier. -/
theorem C10_no_clamping :
    confidencePercentage (6 / 5) = 120 ∧
    (100 : ℚ) < confidencePercentage (6 / 5) ∧
    jsRound (confidencePercentage (6 / 5)) = 120 ∧
    (∀ c : ℚ, 0 < c → CircularProgress.strokeDashoffset c 120 < 0) ∧
    CircularProgress.getColor 120 = "#8b5cf6" := by
  refine ⟨by norm_num [confidencePercentage],
    by norm_num [confidencePercentage], ?_, ?_, by decide⟩
  · norm_num [jsRound, confidencePercentage]
  · intro c hc
    unfold CircularProgress.strokeDashoffset
    linarith

/-- C10 (witness): the ring overdraw instantiated at circumference 1. -/
theorem C10_witness : CircularProgress.strokeDashoffset 1 120 < 0 :=
  C10_no_clamping.2.2.2.1 1 one_pos

end RoleFit
